import Mathlib

/-!
Shallow embedding of the reservation and cross-connect provisioning core of
the tcdona3 testbed library, together with theorems settling the frozen
claims about it.

Embedded code:
  - `utils.check_patch_owners` (utils.py): ownership verification over the
    `active_bookings` table, acting user taken from the environment.
  - the legacy telnet `Polatis` class (polatis.py): `apply_patch_list`,
    `check_patch_owners`, `release_ports`, `get_power`.
  - the unified NETCONF `Polatis` class (polatis/polatis.py):
    `get_inport` / `get_outport`, `apply_patch_list`,
    `disconnect_patch_list`, `release_ports`, `delete_cross_connect`.

Conventions of the embedding: database tables are functions or lists of
rows; the environment is a record of optional variables; power values and
limits are rationals; telnet/NETCONF traffic is represented by the commands
or batched configuration documents the code emits, so that traces of switch
mutations can be reasoned about.
-/

namespace Tcdona3

/-! ### Environment and acting-user derivation -/

/-- The two environment variables consulted for the acting user.
`none` models an unset variable; `some ""` a variable set to the empty
string (falsy in Python). -/
structure Env where
  SUDO_USER : Option String
  USER : Option String
deriving DecidableEq, Repr

/-- Python truthiness of an optional string: `None` and `""` are falsy. -/
def truthy : Option String → Option String
  | some s => if s = "" then none else some s
  | none => none

/-- Acting user of `utils.check_patch_owners`:
`os.getenv("SUDO_USER") or os.getenv("USER")`, then the falsy guard
`if not unix_user: return False`.  The result is `some u` exactly when the
function proceeds with a (non-empty) user `u`. -/
def unix_user (env : Env) : Option String :=
  match truthy env.SUDO_USER with
  | some s => some s
  | none => truthy env.USER

/-! ### Registry rows -/

/-- One row of the `active_bookings` table used by `utils.check_patch_owners`:
a device name together with a nullable booking user name. -/
structure BookingRow where
  device_name : String
  user_name : Option String
deriving DecidableEq, Repr

/-- One row of the legacy `ports_new` table (polatis.py): physical switch
ports, the optional `Max_Inpower` ceiling (NULL modelled as `none`) and the
comma-separated `Owner` column. -/
structure PortsRow where
  Out_Port : Int
  In_Port : Int
  Max_Inpower : Option ℚ
  Owner : String
deriving DecidableEq, Repr

/-- One row of the `device_table` used by the NETCONF variant for
name-to-port resolution. -/
structure DeviceTableRow where
  In_Port : Int
  Out_Port : Int
deriving DecidableEq, Repr

/-! ### utils.check_patch_owners -/

/-- The non-empty bookers of device `d` in the `active_bookings` rows: the
SQL filter `user_name IS NOT NULL AND user_name <> ''` restricted to
`device_name = d`. -/
def bookers (rows : List BookingRow) (d : String) : List String :=
  rows.filterMap (fun b => if b.device_name = d then truthy b.user_name else none)

/-- The flattened, deduplicated, sentinel-free device set of a patch list:
`{device for patch in patch_list for device in patch if device != "NULL"}`. -/
def all_devices (patch_list : List (String × String)) : List String :=
  (((patch_list.map (fun p => [p.1, p.2])).flatten).filter
    (fun d => d != "NULL")).dedup

/-- The conflict condition of the SQL query in `utils.check_patch_owners`:
device `d` has at least one non-empty booking and none of its bookers is
the acting user `u` (`HAVING SUM(user_name = %s) = 0`). -/
def conflict (rows : List BookingRow) (u d : String) : Bool :=
  decide (bookers rows d ≠ [] ∧ u ∉ bookers rows d)

/-- Embedding of `utils.check_patch_owners`.  Returns the boolean result
together with the list of device names sent to the registry query
(empty when the function returns before issuing any query: no valid user,
or an all-sentinel patch list). -/
def check_patch_owners (env : Env) (rows : List BookingRow)
    (patch_list : List (String × String)) : Bool × List String :=
  match unix_user env with
  | none => (false, [])
  | some u =>
    let devs := all_devices patch_list
    if devs.isEmpty then (true, [])
    else (devs.all (fun d => !(conflict rows u d)), devs)

/-! ### NETCONF variant: resolution, batched apply and teardown -/

/-- Embedding of the NETCONF `Polatis.get_inport`: map a logical device
name to its `Out_Port` (legacy swapped convention); a missing
`device_table` row raises `KeyError`, modelled as `Except.error`. -/
def get_inport (device_table : String → Option DeviceTableRow)
    (inx : String) : Except String Int :=
  match device_table inx with
  | some row => .ok row.Out_Port
  | none => .error ("No device_table entry for " ++ inx)

/-- Embedding of the NETCONF `Polatis.get_outport`: map a logical device
name to its `In_Port`; missing rows error. -/
def get_outport (device_table : String → Option DeviceTableRow)
    (outx : String) : Except String Int :=
  match device_table outx with
  | some row => .ok row.In_Port
  | none => .error ("No device_table entry for " ++ outx)

/-- One entry of a batched `cross-connects` configuration document:
a `<pair>` creating ingress→egress, or a `<pair nc:operation="delete">`
keyed by ingress only. -/
inductive ConfigEntry where
  | createPair (ingress egress : Int)
  | deletePair (ingress : Int)
deriving DecidableEq, Repr

/-- One NETCONF `edit-config` call: the batch of entries of the single
configuration document it carries. -/
structure EditCall where
  entries : List ConfigEntry
deriving DecidableEq, Repr

/-- Sequential fallible mapping, as performed by the `for` loops building
the `pairs_xml` list: the first raised `KeyError` aborts the whole
operation before any edit is issued. -/
def mapExcept {α β : Type} (f : α → Except String β) : List α → Except String (List β)
  | [] => .ok []
  | a :: l =>
    match f a with
    | .error e => .error e
    | .ok b =>
      match mapExcept f l with
      | .error e => .error e
      | .ok bs => .ok (b :: bs)

/-- Resolution of one patch pair in the NETCONF `apply_patch_list` loop:
ingress is the source device's `Out_Port` via `get_inport`, egress the
destination device's `In_Port` via `get_outport`. -/
def resolvePair (device_table : String → Option DeviceTableRow)
    (p : String × String) : Except String (Int × Int) :=
  match get_inport device_table p.1 with
  | .error e => .error e
  | .ok i =>
    match get_outport device_table p.2 with
    | .error e => .error e
    | .ok e => .ok (i, e)

/-- Embedding of the NETCONF `Polatis.apply_patch_list`: validate, check
ownership, resolve every pair, then issue a single batched `edit-config`
containing one create entry per pair.  The returned list is the list of
`edit-config` calls issued; any failure before the edit yields an error and
no call. -/
def apply_patch_list (env : Env) (rows : List BookingRow)
    (device_table : String → Option DeviceTableRow)
    (patch_list : List (String × String)) : Except String (List EditCall) :=
  if patch_list.isEmpty then
    .error "patch_list must be a non-empty list of tuples"
  else if !(check_patch_owners env rows patch_list).1 then
    .error "apply_patch_list failed, some (or all) ports are not available. Please contact admin."
  else
    match mapExcept (resolvePair device_table) patch_list with
    | .error e => .error e
    | .ok pairs =>
      .ok [⟨pairs.map (fun pr => ConfigEntry.createPair pr.1 pr.2)⟩]

/-- Embedding of the NETCONF `Polatis.disconnect_patch_list`: validate,
check ownership, resolve each pair's ingress via `get_inport` on the first
component only, then issue a single batched `edit-config` of delete
entries.  The `power` argument stands for the switch's per-port power
readings; the code never consults them during teardown. -/
def disconnect_patch_list (env : Env) (rows : List BookingRow)
    (device_table : String → Option DeviceTableRow)
    (power : Int → ℚ)
    (patch_list : List (String × String)) : Except String (List EditCall) :=
  if patch_list.isEmpty then
    .error "patch_list must be a non-empty list of tuples"
  else if !(check_patch_owners env rows patch_list).1 then
    .error "disconnect_patch_list failed, some (or all) ports are not available. Please contact admin."
  else
    match mapExcept (fun p => get_inport device_table p.1) patch_list with
    | .error e => .error e
    | .ok ins =>
      .ok [⟨ins.map ConfigEntry.deletePair⟩]

/-- Embedding of the NETCONF `Polatis.delete_cross_connect`: the single
`edit-config` call it issues, a one-entry batch deleting the pair keyed by
its ingress port.  The emitted document depends only on the ingress id,
never on the current switch state, and the method raises no error of its
own. -/
def delete_cross_connect (ingress : Int) : EditCall :=
  ⟨[ConfigEntry.deletePair ingress]⟩

/-! ### Switch state

Modelled from the spec: the Switch Control Port is an external collaborator
(the physical switch behind NETCONF) whose code is not in this repository;
its contract in the design is that cross-connects are keyed by ingress port
(at most one egress per ingress), a create entry sets the pair for its
ingress and a delete entry removes the pair keyed by its ingress. -/

/-- Switch cross-connect state: the egress (if any) connected to each
ingress port. -/
def SwitchState : Type := Int → Option Int

/-- Effect of one configuration entry on the switch state. -/
def applyEntry (s : SwitchState) : ConfigEntry → SwitchState
  | .createPair i e => fun j => if j = i then some e else s j
  | .deletePair i => fun j => if j = i then none else s j

/-- Effect of one batched `edit-config` call on the switch state. -/
def applyEdit (s : SwitchState) (c : EditCall) : SwitchState :=
  c.entries.foldl applyEntry s

/-! ### Legacy telnet variant (polatis.py) -/

/-- Parse result of one line of a telnet reply to `RTRV-PORT-POWER`: a line
either matches the power regular expression, yielding a port number and a
power reading, or it does not (`none`). -/
def ReplyLine : Type := Option (Nat × ℚ)

/-- The sentinel value -99.99 dBm returned by the legacy `get_power` when
the reply holds no parseable power line. -/
def power_sentinel : ℚ := mkRat (-9999) 100

/-- Embedding of the legacy `Polatis.get_power`: return the power of the
first parseable line of the reply, and the sentinel `-99.99` when no line
parses. -/
def get_power (lines : List ReplyLine) : ℚ :=
  match lines.filterMap id with
  | [] => power_sentinel
  | pr :: _ => pr.2

/-- Effective power ceiling in the legacy `apply_patch_list`: the fetched
`Max_Inpower` when it is truthy as a Python value (a NULL, and also a
stored 0, fall back), else the default 20.0 dBm. -/
def max_inpower_val (mi : Option ℚ) : ℚ :=
  match mi with
  | some v => if v = 0 then 20 else v
  | none => 20

/-- One telnet command mutating switch state in the legacy variant:
`ENT-PATCH::inp,outp:123:;` issued by `__conn`, one command per pair. -/
inductive TelnetCmd where
  | entPatch (inp outp : Int)
deriving DecidableEq, Repr

/-- The port names the legacy `Polatis.check_patch_owners` queries: every
component of every pair, in order, with the sentinel `"NULL"` skipped. -/
def legacy_ports (patch_list : List (String × String)) : List String :=
  ((patch_list.map (fun p => [p.1, p.2])).flatten).filter (fun d => d != "NULL")

/-- Ownership test of one existing row in the legacy
`Polatis.check_patch_owners`: the row passes unless
`len(owner) != 0 and unix_user not in owner.split(',')`.  An absent acting
user (`None`) is never a member of the split list. -/
def owner_ok (uu : Option String) (owner : String) : Bool :=
  owner = "" ||
    (match uu with
     | some u => (owner.splitOn ",").contains u
     | none => false)

/-- Embedding of the legacy `Polatis.check_patch_owners` over the
`ports_new` table: false when some queried port has no row or some
existing row fails the ownership test. -/
def legacy_check_patch_owners (ports_new : String → Option PortsRow)
    (uu : Option String) (patch_list : List (String × String)) : Bool :=
  (legacy_ports patch_list).all (fun p =>
    match ports_new p with
    | some row => owner_ok uu row.Owner
    | none => false)

/-- The per-pair loop of the legacy `Polatis.apply_patch_list`.  Each
iteration fetches the source row's `Out_Port` and `Max_Inpower` and the
destination row's `In_Port` (a missing row raises, modelled as an error
with no further commands), reads power at the source port, and either
raises `Patch max power exceeded` or issues one `ENT-PATCH` command and
continues.  Returns the telnet commands issued and the error, if any. -/
def legacy_apply_loop (ports_new : String → Option PortsRow)
    (replies : Int → List ReplyLine) :
    List (String × String) → List TelnetCmd × Option String
  | [] => ([], none)
  | (input_comp, output_comp) :: rest =>
    match ports_new input_comp, ports_new output_comp with
    | some ra, some rb =>
      let inp := ra.Out_Port
      let outp := rb.In_Port
      let inpower := get_power (replies inp)
      if inpower > max_inpower_val ra.Max_Inpower then
        ([], some "Patch max power exceeded")
      else
        let r := legacy_apply_loop ports_new replies rest
        (TelnetCmd.entPatch inp outp :: r.1, r.2)
    | _, _ => ([], some "TypeError: NoneType is not subscriptable")

/-- Embedding of the legacy `Polatis.apply_patch_list`: reject an empty
list, reject when `check_patch_owners` fails, else run the per-pair loop. -/
def legacy_apply_patch_list (ports_new : String → Option PortsRow)
    (replies : Int → List ReplyLine) (uu : Option String)
    (patch_list : List (String × String)) : List TelnetCmd × Option String :=
  if patch_list.isEmpty then
    ([], some "Argument patch_list must not be empty")
  else if !(legacy_check_patch_owners ports_new uu patch_list) then
    ([], some "apply_patch_list failed, some (or all) ports are not available. Please contact admin.")
  else legacy_apply_loop ports_new replies patch_list

/-! ### Release operations and database credentials -/

/-- A set of MySQL connection parameters. -/
structure DBCreds where
  host : String
  user : String
  password : String
  database : String
deriving DecidableEq, Repr

/-- The hard-coded credentials the legacy variant uses for ordinary
operations (`check_patch_owners`, `apply_patch_list`). -/
def standard_db_creds : DBCreds :=
  ⟨"127.0.0.1", "testbed", "mypassword", "provdb"⟩

/-- The credentials `utils.check_patch_owners` uses for booking reads:
environment-overridable, with the same defaults. -/
def utils_db_creds (dbHost dbUser dbPassword dbName : Option String) : DBCreds :=
  ⟨dbHost.getD "127.0.0.1", dbUser.getD "testbed",
   dbPassword.getD "mypassword", dbName.getD "provdb"⟩

/-- Contents of `/etc/secure_keys/mysql_key.key`: first line the
administrator user, second line the password. -/
structure KeyFile where
  admin_user : String
  admin_password : String
deriving DecidableEq, Repr

/-- The credentials the legacy `release_ports` connects with: the
administrator user and password read from the key file. -/
def admin_db_creds (k : KeyFile) : DBCreds :=
  ⟨"127.0.0.1", k.admin_user, k.admin_password, "provdb"⟩

/-- The `UPDATE ports_new SET Owner = username WHERE Name = name`
statements issued by either `release_ports` variant: one per non-sentinel
name of the flattened patch list, overwriting the `Owner` column. -/
def release_updates (patch_list : List (String × String))
    (username : String) : List (String × String) :=
  (((patch_list.map (fun p => [p.1, p.2])).flatten).filter
    (fun n => n != "NULL")).map (fun n => (n, username))

/-- Embedding of the legacy `Polatis.release_ports`: connect with the
key-file administrator credentials and issue the owner updates; no
ownership check is consulted. -/
def legacy_release_ports (k : KeyFile) (patch_list : List (String × String))
    (username : String) : DBCreds × List (String × String) :=
  (admin_db_creds k, release_updates patch_list username)

/-- The NETCONF `Polatis` constructor's default database parameters
(`db_host`, `db_user`, `db_pass`, `db_name`), used by `self._db()`. -/
def netconf_default_db_creds : DBCreds :=
  ⟨"127.0.0.1", "testbed", "mypassword", "provdb"⟩

/-- Embedding of the NETCONF `Polatis.release_ports`: connect with the
instance's ordinary `self._db()` credentials and issue the owner updates;
no ownership check is consulted. -/
def netconf_release_ports (creds : DBCreds)
    (patch_list : List (String × String))
    (username : String) : DBCreds × List (String × String) :=
  (creds, release_updates patch_list username)

/-! ### Derived per-pair views of the legacy apply loop -/

/-- The `ports_new` rows fetched for one pair: source and destination row,
or `none` when either lookup has no row. -/
def pair_rows (ports_new : String → Option PortsRow)
    (p : String × String) : Option (PortsRow × PortsRow) :=
  match ports_new p.1, ports_new p.2 with
  | some ra, some rb => some (ra, rb)
  | _, _ => none

/-- A pair whose rows resolve and whose measured source power strictly
exceeds the effective ceiling: exactly the condition raising
`Patch max power exceeded` in the legacy loop. -/
def pair_exceeds (ports_new : String → Option PortsRow)
    (replies : Int → List ReplyLine) (p : String × String) : Bool :=
  match pair_rows ports_new p with
  | some (ra, _) =>
    decide (get_power (replies ra.Out_Port) > max_inpower_val ra.Max_Inpower)
  | none => false

/-- A pair whose rows resolve and whose measured source power does not
exceed the effective ceiling: the legacy loop connects it and continues. -/
def pair_ok (ports_new : String → Option PortsRow)
    (replies : Int → List ReplyLine) (p : String × String) : Bool :=
  match pair_rows ports_new p with
  | some (ra, _) =>
    decide (¬ (get_power (replies ra.Out_Port) > max_inpower_val ra.Max_Inpower))
  | none => false

/-- The telnet command the legacy loop issues for one resolvable pair. -/
def pair_conn (ports_new : String → Option PortsRow)
    (p : String × String) : List TelnetCmd :=
  match pair_rows ports_new p with
  | some (ra, rb) => [TelnetCmd.entPatch ra.Out_Port rb.In_Port]
  | none => []

/-! ### Concrete sample inputs used by counterexamples and witnesses -/

/-- A small `ports_new` directory: devices A, B, D with no configured
ceiling, device C with `Max_Inpower` 10 dBm, all unowned. -/
def sample_ports : String → Option PortsRow := fun n =>
  if n = "A" then some ⟨229, 230, none, ""⟩
  else if n = "B" then some ⟨406, 405, none, ""⟩
  else if n = "C" then some ⟨101, 102, some 10, ""⟩
  else if n = "D" then some ⟨202, 201, none, ""⟩
  else none

/-- Telnet power replies reading 1 dBm at port 229 and 15 dBm at
port 101. -/
def sample_replies_unsafe : Int → List ReplyLine := fun p =>
  if p = 229 then [some (229, 1)]
  else if p = 101 then [some (101, 15)]
  else []

/-- Telnet power replies reading 1 dBm at both port 229 and port 101. -/
def sample_replies_safe : Int → List ReplyLine := fun p =>
  if p = 229 then [some (229, 1)]
  else if p = 101 then [some (101, 1)]
  else []

/-- A directory for the misdirected-ceiling scenario: source A has no
configured ceiling, destination B has `Max_Inpower` 10 dBm. -/
def limit_ports : String → Option PortsRow := fun n =>
  if n = "A" then some ⟨229, 230, none, ""⟩
  else if n = "B" then some ⟨406, 405, some 10, ""⟩
  else none

/-- Telnet power replies reading 15 dBm at port 229. -/
def limit_replies : Int → List ReplyLine := fun p =>
  if p = 229 then [some (229, 15)] else []

/-- A directory whose device A carries a configured ceiling of
-150 dBm, below the -99.99 unreadable-power sentinel. -/
def low_limit_ports : String → Option PortsRow := fun n =>
  if n = "A" then some ⟨229, 230, some (-150), ""⟩
  else if n = "B" then some ⟨406, 405, none, ""⟩
  else none

/-- Telnet replies with no parseable power line on any port. -/
def unreadable_replies : Int → List ReplyLine := fun _ => []

/-- A small `device_table` for the NETCONF variant. -/
def sample_device_table : String → Option DeviceTableRow := fun n =>
  if n = "A" then some ⟨230, 229⟩
  else if n = "B" then some ⟨405, 406⟩
  else none

/-- A booking table in which device A is booked by alice alone. -/
def sample_bookings : List BookingRow := [⟨"A", some "alice"⟩]

/-- An environment acting as user bob. -/
def bob_env : Env := ⟨none, some "bob"⟩

/-! ### Theorems -/

/-- Helper: the sentinel name never survives the `!= "NULL"` filter. -/
theorem not_null_mem_filter (l : List String) :
    "NULL" ∉ l.filter (fun d => d != "NULL") := by
  intro h
  rw [List.mem_filter] at h
  simp at h

/-- Helper: the names updated by `release_updates` are exactly the
non-sentinel names of the flattened patch list. -/
theorem release_updates_fst (pl : List (String × String)) (u : String) :
    (release_updates pl u).map Prod.fst
      = ((pl.map (fun p => [p.1, p.2])).flatten).filter (fun n => n != "NULL") := by
  rw [release_updates, List.map_map]
  exact List.map_id _

/-- C7: for every resolved ingress port id, applying the teardown edit of
`delete_cross_connect` twice in succession yields the same switch state as
applying it once, that state holds no cross-connect for the ingress, and
the edit document issued is a pure function of the ingress id, so the
second call raises nothing at the code level merely because the pair is
already absent. -/
theorem claim_C7 (s : SwitchState) (i : Int) :
    applyEdit (applyEdit s (delete_cross_connect i)) (delete_cross_connect i)
      = applyEdit s (delete_cross_connect i)
    ∧ applyEdit s (delete_cross_connect i) i = none := by
  constructor
  · funext j
    by_cases h : j = i <;> simp [applyEdit, applyEntry, delete_cross_connect, h]
  · simp [applyEdit, applyEntry, delete_cross_connect]

/-- C4: a pair (A, B) resolves to the cross-connect whose ingress is A's
configured `Out_Port` and whose egress is B's configured `In_Port`, and a
device name absent from `device_table` makes both `get_inport` and
`get_outport` return a not-found error, never a default port value. -/
theorem claim_C4 (dt : String → Option DeviceTableRow) (a b : String)
    (ra rb : DeviceTableRow) :
    (dt a = some ra → dt b = some rb →
      resolvePair dt (a, b) = .ok (ra.Out_Port, rb.In_Port))
    ∧ (∀ d, dt d = none →
        get_inport dt d = .error ("No device_table entry for " ++ d)
        ∧ get_outport dt d = .error ("No device_table entry for " ++ d)) := by
  constructor
  · intro ha hb
    simp [resolvePair, get_inport, get_outport, ha, hb]
  · intro d hd
    constructor <;> simp [get_inport, get_outport, hd]

/-- Witness for C4 at the sample device table: resolving ("A", "B") gives
ingress 229 (A's `Out_Port`) and egress 405 (B's `In_Port`), and the
missing name "Z" yields a not-found error on both lookups. -/
theorem claim_C4_witness :
    resolvePair sample_device_table ("A", "B") = .ok (229, 405)
    ∧ get_inport sample_device_table "Z"
        = .error ("No device_table entry for " ++ "Z")
    ∧ get_outport sample_device_table "Z"
        = .error ("No device_table entry for " ++ "Z") := by
  refine ⟨?_, ?_, ?_⟩
  · exact (claim_C4 sample_device_table "A" "B" ⟨230, 229⟩ ⟨405, 406⟩).1
      (by decide) (by decide)
  · exact ((claim_C4 sample_device_table "A" "B" ⟨230, 229⟩ ⟨405, 406⟩).2
      "Z" (by decide)).1
  · exact ((claim_C4 sample_device_table "A" "B" ⟨230, 229⟩ ⟨405, 406⟩).2
      "Z" (by decide)).2

/-- C3 (code bug): in the legacy `apply_patch_list`, the ceiling the
measured source power is compared against is the SOURCE device's
`Max_Inpower`, not the destination's.  At the directory where source A has
no configured ceiling (default 20 dBm) and destination B has a 10 dBm
ceiling, a measured 15 dBm at A's out port 229 exceeds B's 10 dBm limit,
yet the code connects the pair: the comparison used A's default 20 dBm. -/
theorem claim_C3 :
    legacy_apply_patch_list limit_ports limit_replies (some "alice") [("A", "B")]
      = ([TelnetCmd.entPatch 229 405], none)
    ∧ limit_ports "B" = some ⟨406, 405, some 10, ""⟩
    ∧ get_power (limit_replies 229) = 15
    ∧ max_inpower_val (some 10) < get_power (limit_replies 229) := by
  refine ⟨by decide, by decide, by decide, by decide⟩

/-- C10: `utils.check_patch_owners` derives the acting user from
`SUDO_USER`, falls back to `USER` when `SUDO_USER` is unset, and with
neither variable set it returns false for every patch list regardless of
the booking table. -/
theorem claim_C10 (env : Env) (s : String) (rows : List BookingRow)
    (pl : List (String × String)) :
    (env.SUDO_USER = some s → s ≠ "" → unix_user env = some s)
    ∧ (env.SUDO_USER = none → unix_user env = truthy env.USER)
    ∧ check_patch_owners ⟨none, none⟩ rows pl = (false, []) := by
  refine ⟨?_, ?_, ?_⟩
  · intro h hs
    simp [unix_user, truthy, h, hs]
  · intro h
    simp [unix_user, h, truthy]
  · simp [check_patch_owners, unix_user, truthy]

/-- Witness for C10: with SUDO_USER=alice the derived user is alice; with
SUDO_USER unset and USER=bob it is bob; with neither set, a request for an
unbooked device is still rejected. -/
theorem claim_C10_witness :
    unix_user ⟨some "alice", some "bob"⟩ = some "alice"
    ∧ unix_user ⟨none, some "bob"⟩ = some "bob"
    ∧ check_patch_owners ⟨none, none⟩ [] [("A", "B")] = (false, []) := by
  refine ⟨?_, ?_, ?_⟩
  · exact (claim_C10 ⟨some "alice", some "bob"⟩ "alice" [] []).1 rfl (by decide)
  · exact (claim_C10 ⟨none, some "bob"⟩ "bob" [] []).2.1 rfl
  · exact (claim_C10 ⟨none, none⟩ "x" [] [("A", "B")]).2.2

/-- Helper: on a list `pre ++ q :: post` where every pair of `pre` resolves
and passes the power check and `q` resolves and fails it, the legacy apply
loop issues exactly the connect commands of `pre` and stops with the power
error; nothing of `q` or `post` is connected. -/
theorem legacy_apply_loop_prefix (pn : String → Option PortsRow)
    (rp : Int → List ReplyLine) (q : String × String)
    (post : List (String × String)) :
    ∀ pre : List (String × String),
      (∀ p ∈ pre, pair_ok pn rp p = true) →
      pair_exceeds pn rp q = true →
      legacy_apply_loop pn rp (pre ++ q :: post)
        = ((pre.map (pair_conn pn)).flatten, some "Patch max power exceeded") := by
  intro pre
  induction pre with
  | nil =>
    intro _ hq
    obtain ⟨qa, qb⟩ := q
    cases h1 : pn qa with
    | none => simp [pair_exceeds, pair_rows, h1] at hq
    | some ra =>
      cases h2 : pn qb with
      | none => simp [pair_exceeds, pair_rows, h1, h2] at hq
      | some rb =>
        simp [pair_exceeds, pair_rows, h1, h2] at hq
        simp [legacy_apply_loop, h1, h2, hq]
  | cons p pre ih =>
    intro hpre hq
    have hp := hpre p (List.mem_cons_self p pre)
    have hpre2 : ∀ r ∈ pre, pair_ok pn rp r = true :=
      fun r hr => hpre r (List.mem_cons_of_mem p hr)
    obtain ⟨pa, pb⟩ := p
    cases h1 : pn pa with
    | none => simp [pair_ok, pair_rows, h1] at hp
    | some ra =>
      cases h2 : pn pb with
      | none => simp [pair_ok, pair_rows, h1, h2] at hp
      | some rb =>
        simp [pair_ok, pair_rows, h1, h2] at hp
        simp [legacy_apply_loop, h1, h2, hp, pair_conn, pair_rows,
          ih hpre2 hq]

/-- C1 counterexample: for the two-pair request [("A","B"), ("C","D")]
where ("C","D") fails the power-safety check, the legacy
`apply_patch_list` raises the power error but has already issued the
cross-connect of the first pair — the created set is not empty, contrary
to the claim that no cross-connect is created for any pair. -/
theorem claim_C1_counterexample :
    legacy_apply_patch_list sample_ports sample_replies_unsafe (some "alice")
        [("A", "B"), ("C", "D")]
      = ([TelnetCmd.entPatch 229 405], some "Patch max power exceeded")
    ∧ [TelnetCmd.entPatch 229 405] ≠ ([] : List TelnetCmd) :=
  ⟨by decide, by decide⟩

/-- C1 amended: when a pair of the request fails the power-safety check
(and the ownership check passed), the legacy `apply_patch_list` aborts at
the first failing pair: that pair and all later pairs get no cross-connect,
but every pair preceding it has already been connected and remains so. -/
theorem claim_C1 (pn : String → Option PortsRow) (rp : Int → List ReplyLine)
    (uu : Option String) (pre post : List (String × String))
    (q : String × String)
    (hchk : legacy_check_patch_owners pn uu (pre ++ q :: post) = true)
    (hpre : ∀ p ∈ pre, pair_ok pn rp p = true)
    (hq : pair_exceeds pn rp q = true) :
    legacy_apply_patch_list pn rp uu (pre ++ q :: post)
      = ((pre.map (pair_conn pn)).flatten, some "Patch max power exceeded") := by
  have hne : (pre ++ q :: post).isEmpty = false := by
    simp
  simp [legacy_apply_patch_list, hne, hchk,
    legacy_apply_loop_prefix pn rp q post pre hpre hq]

/-- Witness for C1 at the sample inputs: the ownership check passes, pair
("A","B") is safe, pair ("C","D") exceeds its ceiling, and the run ends
with the power error after connecting exactly the first pair. -/
theorem claim_C1_witness :
    legacy_check_patch_owners sample_ports (some "alice")
        ([("A", "B")] ++ ("C", "D") :: []) = true
    ∧ legacy_apply_patch_list sample_ports sample_replies_unsafe (some "alice")
        ([("A", "B")] ++ ("C", "D") :: [])
      = (([("A", "B")].map (pair_conn sample_ports)).flatten,
         some "Patch max power exceeded") :=
  ⟨by decide,
   claim_C1 sample_ports sample_replies_unsafe (some "alice") [("A", "B")] []
     ("C", "D") (by decide) (by decide) (by decide)⟩

/-- C2: `utils.check_patch_owners` succeeds iff every referenced
non-sentinel device is unbooked, has only empty bookings, or lists the
acting user among its bookers; and when some referenced device is booked
only by other users, the NETCONF `apply_patch_list` returns the
authorization error and issues no edit call. -/
theorem claim_C2 (env : Env) (rows : List BookingRow)
    (dt : String → Option DeviceTableRow) (pl : List (String × String))
    (u : String) (hu : unix_user env = some u) :
    ((check_patch_owners env rows pl).1 = true ↔
      ∀ d ∈ all_devices pl, bookers rows d = [] ∨ u ∈ bookers rows d)
    ∧ (∀ d, d ∈ all_devices pl → bookers rows d ≠ [] → u ∉ bookers rows d →
        apply_patch_list env rows dt pl
          = .error "apply_patch_list failed, some (or all) ports are not available. Please contact admin.") := by
  have hmain : (check_patch_owners env rows pl).1 = true ↔
      ∀ d ∈ all_devices pl, bookers rows d = [] ∨ u ∈ bookers rows d := by
    by_cases hd : (all_devices pl).isEmpty
    · have hnil : all_devices pl = [] := by simpa using hd
      simp [check_patch_owners, hu, hnil]
    · simp only [check_patch_owners, hu]
      rw [if_neg hd]
      simp only [List.all_eq_true, conflict]
      constructor
      · intro h d hdm
        have := h d hdm
        simp at this
        tauto
      · intro h d hdm
        have := h d hdm
        simp
        tauto
  refine ⟨hmain, ?_⟩
  intro d hdm hb hnu
  have hfalse : (check_patch_owners env rows pl).1 = false := by
    rcases Bool.eq_false_or_eq_true (check_patch_owners env rows pl).1 with h | h
    · exfalso
      rcases hmain.mp h d hdm with h1 | h2
      · exact hb h1
      · exact hnu h2
    · exact h
  have hne : pl.isEmpty = false := by
    cases pl with
    | nil => simp [all_devices] at hdm
    | cons a l => rfl
  simp [apply_patch_list, hne, hfalse]

/-- Witness for C2: acting as bob with device A booked by alice alone, the
apply request for ("A", "B") fails with the authorization error. -/
theorem claim_C2_witness :
    unix_user bob_env = some "bob"
    ∧ apply_patch_list bob_env sample_bookings sample_device_table [("A", "B")]
        = .error "apply_patch_list failed, some (or all) ports are not available. Please contact admin." := by
  refine ⟨by decide, ?_⟩
  exact (claim_C2 bob_env sample_bookings sample_device_table [("A", "B")]
    "bob" (by decide)).2 "A" (by decide) (by decide) (by decide)

/-- C5 amended: the NETCONF `apply_patch_list` issues exactly one batched
edit-config containing a create entry for every pair, the NETCONF
`disconnect_patch_list` issues exactly one batched edit-config whose delete
entries are keyed only by each pair's resolved ingress port, and teardown
is independent of the switch's power readings (no power check); the legacy
telnet variant, by contrast, issues one connect command per pair (see the
counterexample). -/
theorem claim_C5 (env : Env) (rows : List BookingRow)
    (dt : String → Option DeviceTableRow) (pw pw2 : Int → ℚ)
    (pl : List (String × String)) (pairs : List (Int × Int)) (ins : List Int)
    (hne : pl.isEmpty = false)
    (hchk : (check_patch_owners env rows pl).1 = true) :
    (mapExcept (resolvePair dt) pl = .ok pairs →
      apply_patch_list env rows dt pl
        = .ok [⟨pairs.map (fun pr => ConfigEntry.createPair pr.1 pr.2)⟩])
    ∧ (mapExcept (fun p => get_inport dt p.1) pl = .ok ins →
      disconnect_patch_list env rows dt pw pl
        = .ok [⟨ins.map ConfigEntry.deletePair⟩])
    ∧ disconnect_patch_list env rows dt pw pl
        = disconnect_patch_list env rows dt pw2 pl := by
  refine ⟨?_, ?_, rfl⟩
  · intro h
    simp [apply_patch_list, hne, hchk, h]
  · intro h
    simp [disconnect_patch_list, hne, hchk, h]

/-- C5 counterexample: the legacy telnet `apply_patch_list` (also cited by
the claim) does not issue one batched change: for a two-pair request it
issues two separate `ENT-PATCH` connect commands, one per pair. -/
theorem claim_C5_counterexample :
    legacy_apply_patch_list sample_ports sample_replies_safe (some "alice")
        [("A", "B"), ("C", "D")]
      = ([TelnetCmd.entPatch 229 405, TelnetCmd.entPatch 101 201], none)
    ∧ ¬ ([TelnetCmd.entPatch 229 405, TelnetCmd.entPatch 101 201].length = 1) :=
  ⟨by decide, by decide⟩

/-- Witness for C5: an authorized, fully resolvable request produces a
single batched create call, and its teardown a single batched delete call
keyed by the resolved ingress 229. -/
theorem claim_C5_witness :
    apply_patch_list ⟨none, some "alice"⟩ [] sample_device_table [("A", "B")]
      = .ok [⟨[ConfigEntry.createPair 229 405]⟩]
    ∧ disconnect_patch_list ⟨none, some "alice"⟩ [] sample_device_table
        (fun _ => 0) [("A", "B")]
      = .ok [⟨[ConfigEntry.deletePair 229]⟩] := by
  refine ⟨?_, ?_⟩
  · exact (claim_C5 ⟨none, some "alice"⟩ [] sample_device_table (fun _ => 0)
      (fun _ => 0) [("A", "B")] [(229, 405)] [229] (by decide) (by decide)).1
      (by rfl)
  · exact (claim_C5 ⟨none, some "alice"⟩ [] sample_device_table (fun _ => 0)
      (fun _ => 0) [("A", "B")] [(229, 405)] [229] (by decide) (by decide)).2.1
      (by rfl)

/-- C6 counterexample: the NETCONF variant's `release_ports` connects
through `self._db()`, i.e. with the instance's ordinary database
credentials — at the constructor defaults these are exactly the ordinary
booking-read credentials of `utils.check_patch_owners` (and the legacy
hard-coded ones), not distinct elevated credentials. -/
theorem claim_C6_counterexample :
    (netconf_release_ports netconf_default_db_creds [("A", "B")] "bob").1
      = utils_db_creds none none none none
    ∧ (netconf_release_ports netconf_default_db_creds [("A", "B")] "bob").1
      = standard_db_creds :=
  ⟨by decide, by decide⟩

/-- C6 amended: the legacy `release_ports` connects with administrator
credentials read from the key file (distinct from the ordinary booking-read
credentials whenever the key file names a different user), while the
NETCONF variant's `release_ports` connects with its ordinary instance
credentials; both variants skip the sentinel name, consult no ownership
verifier, and overwrite the Owner field of every other named device. -/
theorem claim_C6 (k : KeyFile) (creds : DBCreds)
    (pl : List (String × String)) (u : String)
    (hk : k.admin_user ≠ "testbed") :
    (legacy_release_ports k pl u).1 = admin_db_creds k
    ∧ admin_db_creds k ≠ utils_db_creds none none none none
    ∧ (netconf_release_ports creds pl u).1 = creds
    ∧ "NULL" ∉ (release_updates pl u).map Prod.fst
    ∧ (∀ n, n ∈ (pl.map (fun p => [p.1, p.2])).flatten → n ≠ "NULL" →
        (n, u) ∈ release_updates pl u)
    ∧ (legacy_release_ports k pl u).2 = release_updates pl u
    ∧ (netconf_release_ports creds pl u).2 = release_updates pl u := by
  refine ⟨rfl, ?_, rfl, ?_, ?_, rfl, rfl⟩
  · intro h
    apply hk
    have := congrArg DBCreds.user h
    simpa [admin_db_creds, utils_db_creds] using this
  · rw [release_updates_fst]
    exact not_null_mem_filter _
  · intro n hn hne
    rw [release_updates, List.mem_map]
    refine ⟨n, ?_, rfl⟩
    rw [List.mem_filter]
    exact ⟨hn, by simpa using hne⟩

/-- Witness for C6: with an "admin" key file, the legacy release connects
as the key-file administrator, those credentials differ from the ordinary
defaults, and a release of [("A", "NULL")] updates only "A". -/
theorem claim_C6_witness :
    (legacy_release_ports ⟨"admin", "secret"⟩ [("A", "NULL")] "bob").1
      = admin_db_creds ⟨"admin", "secret"⟩
    ∧ admin_db_creds ⟨"admin", "secret"⟩ ≠ utils_db_creds none none none none
    ∧ "NULL" ∉ (release_updates [("A", "NULL")] "bob").map Prod.fst
    ∧ (legacy_release_ports ⟨"admin", "secret"⟩ [("A", "NULL")] "bob").2
      = release_updates [("A", "NULL")] "bob" := by
  have h := claim_C6 ⟨"admin", "secret"⟩ standard_db_creds [("A", "NULL")]
    "bob" (by decide)
  exact ⟨h.1, h.2.1, h.2.2.2.1, h.2.2.2.2.2.1⟩

/-- C8: the sentinel "NULL" is never in the device set queried by
`utils.check_patch_owners`, never among the ports queried by the legacy
ownership check, and never among the names updated by `release_ports`; an
all-sentinel patch list is authorized with an empty query list, i.e.
without any registry query. -/
theorem claim_C8 (env : Env) (rows : List BookingRow)
    (pl : List (String × String)) (u un : String)
    (hu : unix_user env = some u) :
    "NULL" ∉ all_devices pl
    ∧ "NULL" ∉ legacy_ports pl
    ∧ ((∀ p ∈ pl, p.1 = "NULL" ∧ p.2 = "NULL") →
        check_patch_owners env rows pl = (true, []))
    ∧ "NULL" ∉ (release_updates pl un).map Prod.fst := by
  refine ⟨?_, ?_, ?_, ?_⟩
  · intro h
    rw [all_devices, List.mem_dedup] at h
    exact not_null_mem_filter _ h
  · intro h
    unfold legacy_ports at h
    exact not_null_mem_filter _ h
  · intro hall
    have hflat : ∀ x ∈ (pl.map (fun p => [p.1, p.2])).flatten, x = "NULL" := by
      intro x hx
      rw [List.mem_flatten] at hx
      obtain ⟨l, hl, hxl⟩ := hx
      rw [List.mem_map] at hl
      obtain ⟨p, hp, rfl⟩ := hl
      obtain ⟨h1, h2⟩ := hall p hp
      simp at hxl
      rcases hxl with rfl | rfl
      · exact h1
      · exact h2
    have hfil : ((pl.map (fun p => [p.1, p.2])).flatten).filter
        (fun d => d != "NULL") = [] := by
      rw [List.filter_eq_nil_iff]
      intro a ha
      simp [hflat a ha]
    have hnil : all_devices pl = [] := by
      simp [all_devices, hfil]
    simp [check_patch_owners, hu, hnil]
  · rw [release_updates_fst]
    exact not_null_mem_filter _

/-- Witness for C8: with a valid acting user, the all-sentinel request
[("NULL", "NULL")] is authorized with an empty query list even though an
unrelated device is booked by someone else, and releasing it updates
nothing. -/
theorem claim_C8_witness :
    check_patch_owners ⟨none, some "alice"⟩ [⟨"X", some "carol"⟩]
        [("NULL", "NULL")] = (true, [])
    ∧ "NULL" ∉ (release_updates [("NULL", "NULL")] "bob").map Prod.fst := by
  have h := claim_C8 ⟨none, some "alice"⟩ [⟨"X", some "carol"⟩]
    [("NULL", "NULL")] "alice" "bob" (by decide)
  exact ⟨h.2.2.1 (by decide), h.2.2.2⟩

/-- C9 counterexample: an unreadable power reading is the sentinel -99.99,
which is not below every limit — with a configured ceiling of -150 dBm the
pair is rejected with the power error and no cross-connect is created,
contrary to the claim that the switch proceeds to create it. -/
theorem claim_C9_counterexample :
    get_power (unreadable_replies 229) = power_sentinel
    ∧ legacy_apply_patch_list low_limit_ports unreadable_replies (some "alice")
        [("A", "B")]
      = ([], some "Patch max power exceeded") :=
  ⟨by decide, by decide⟩

/-- C9 amended: when the reply to a single-port power query has no
parseable power line, the legacy `get_power` returns the sentinel -99.99
instead of raising; consequently, whenever the effective limit is at least
-99.99 dBm (in particular the default 20 dBm), the safety comparison
passes and `apply_patch_list` creates the cross-connect. -/
theorem claim_C9 (lines : List ReplyLine) (pn : String → Option PortsRow)
    (rp : Int → List ReplyLine) (uu : Option String) (a b : String)
    (ra rb : PortsRow) :
    (lines.filterMap id = [] → get_power lines = power_sentinel)
    ∧ (pn a = some ra → pn b = some rb →
        (rp ra.Out_Port).filterMap id = [] →
        legacy_check_patch_owners pn uu [(a, b)] = true →
        power_sentinel ≤ max_inpower_val ra.Max_Inpower →
        legacy_apply_patch_list pn rp uu [(a, b)]
          = ([TelnetCmd.entPatch ra.Out_Port rb.In_Port], none)) := by
  refine ⟨?_, ?_⟩
  · intro h
    simp [get_power, h]
  · intro h1 h2 hr hchk hlim
    have hp : get_power (rp ra.Out_Port) = power_sentinel := by
      simp [get_power, hr]
    have hcmp : ¬ (get_power (rp ra.Out_Port) > max_inpower_val ra.Max_Inpower) := by
      rw [hp]
      exact not_lt.mpr hlim
    simp [legacy_apply_patch_list, hchk, legacy_apply_loop, h1, h2, hcmp]

/-- Witness for C9: with no parseable line and the default 20 dBm ceiling,
get_power returns -99.99 and the pair ("A", "B") is connected. -/
theorem claim_C9_witness :
    get_power ([] : List ReplyLine) = power_sentinel
    ∧ legacy_apply_patch_list limit_ports unreadable_replies (some "alice")
        [("A", "B")]
      = ([TelnetCmd.entPatch 229 405], none) := by
  have h := claim_C9 [] limit_ports unreadable_replies (some "alice") "A" "B"
    ⟨229, 230, none, ""⟩ ⟨406, 405, some 10, ""⟩
  exact ⟨h.1 rfl, h.2 (by decide) (by decide) rfl (by decide) (by decide)⟩

end Tcdona3
